import Mathlib

/-!
Verification of the tooltip-OCR pipeline and scanner state machine of the
PabsArcTooltip repository (`src/arc_helper/ocr.py`, `src/arc_helper/main.py`).

Python strings are modelled as `List Char`, machine reals produced by
`time.time()` and the numpy fraction computations as `ℚ` (all fractions the
code compares are exact small rationals, so this is faithful), images as
nested lists of channel samples, and the external collaborators (PIL's
resampling filter, the Tesseract engine, the SQLite lookup and the clock)
as explicit function/oracle parameters.  Fallible code is total here:
every Python control path that cannot raise is modelled by a total
function, and the scanner loop's `try/except` by an `Except` value.
-/

namespace ArcTooltip

/-- Convenience: the character list of a string literal (Python `str` values
are modelled as `List Char`). -/
def chars (s : String) : List Char := s.toList

/-! ### `OCREngine._clean_text` (ocr.py lines 366-374)

`re.sub(r"[|\\/_]", "", text)`, then `re.sub(r"\s+", " ", text)`, then
`text.strip()`. -/

/-- Characters removed by the first substitution `re.sub(r"[|\\/_]", "", ...)`:
the OCR artifacts `|`, `\`, `/`, `_`. -/
def isArtifactChar (c : Char) : Bool :=
  c = '|' || c = '\\' || c = '/' || c = '_'

/-- Python's regex `\s` class, restricted to the ASCII whitespace characters
(space, tab, newline, carriage return, vertical tab, form feed); the
non-ASCII Unicode whitespace accepted by Python is irrelevant to every
claim and to the algebra proved below, which only needs that `' '` is
whitespace. -/
def pyIsSpace (c : Char) : Bool :=
  c = ' ' || c = '\t' || c = '\n' || c = '\r' || c = '\x0b' || c = '\x0c'

/-- Models `re.sub(r"[|\\/_]", "", text)`: delete every artifact character. -/
def removeArtifacts (text : List Char) : List Char :=
  text.filter (fun c => !isArtifactChar c)

/-- Worker for `re.sub(r"\s+", " ", text)`: replace every maximal run of
whitespace by a single space.  The flag records whether we are currently
inside a whitespace run. -/
def collapseWSAux : Bool → List Char → List Char
  | _, [] => []
  | inRun, c :: rest =>
    if pyIsSpace c then
      if inRun then collapseWSAux true rest
      else ' ' :: collapseWSAux true rest
    else c :: collapseWSAux false rest

/-- Models `re.sub(r"\s+", " ", text)`. -/
def collapseWS (text : List Char) : List Char :=
  collapseWSAux false text

/-- Python `str.strip()`: drop leading and trailing whitespace. -/
def pyStrip (text : List Char) : List Char :=
  List.rdropWhile pyIsSpace (List.dropWhile pyIsSpace text)

/-- Models `OCREngine._clean_text` (ocr.py 366-374): remove OCR artifact characters,
collapse whitespace runs to single spaces, strip. -/
def clean_text (text : List Char) : List Char :=
  pyStrip (collapseWS (removeArtifacts text))

/-- Invariant of whitespace-collapsed text: no whitespace character is
immediately followed by another. -/
def NoSpaceRun (l : List Char) : Prop :=
  List.Chain' (fun a b => pyIsSpace a = true → pyIsSpace b = false) l

/-- Invariant of whitespace-collapsed text: every whitespace character is a
plain space. -/
def SpacesNormalized (l : List Char) : Prop :=
  ∀ c ∈ l, pyIsSpace c = true → c = ' '

/-! ### `OCREngine.parse_item_name_from_tooltip` (ocr.py 455-498) -/

/-- Python `text.split("\n")`: split on newlines, keeping empty pieces. -/
def splitOnNL : List Char → List (List Char)
  | [] => [[]]
  | c :: rest =>
    if c = '\n' then [] :: splitOnNL rest
    else
      match splitOnNL rest with
      | [] => [[c]]
      | h :: t => (c :: h) :: t

/-- Models `[line.strip() for line in text.split("\n") if line.strip()]`
(ocr.py 462). -/
def tooltipLines (text : List Char) : List (List Char) :=
  ((splitOnNL text).map pyStrip).filter (fun l => l ≠ [])

/-- The `for line in lines` loop of `parse_item_name_from_tooltip`
(ocr.py 471-492), with `found` playing the role of `found_name`.  A line
whose cleaned form is empty or shorter than 2 characters is skipped
(`continue`), as is a line with no alphabetic characters; an all-caps
cleaned line of length at least 3 is collected and sets `found`; any other
line breaks the loop once `found` is set and is otherwise passed over. -/
def collectNameLines : List (List Char) → Bool → List (List Char)
  | [], _ => []
  | line :: rest, found =>
    let cleaned := clean_text line
    if cleaned.length < 2 then collectNameLines rest found
    else if cleaned.filter Char.isAlpha = [] then collectNameLines rest found
    else if (cleaned.filter Char.isAlpha).all Char.isUpper = true ∧ 3 ≤ cleaned.length then
      cleaned :: collectNameLines rest true
    else if found then []
    else collectNameLines rest found

/-- Models `OCREngine.parse_item_name_from_tooltip` (ocr.py 455-498): split into
non-empty stripped lines, collect the first contiguous run of name lines,
and join it with single spaces; `none` when nothing was collected. -/
def parse_item_name_from_tooltip (text : List Char) : Option (List Char) :=
  let lines := tooltipLines text
  if lines = [] then none
  else
    let name_lines := collectNameLines lines false
    if name_lines = [] then none
    else some (List.intercalate [' '] name_lines)

/-- Classification of a stripped line, used to state the parser's
behaviour in the spec's vocabulary. -/
inductive LineClass where
  | skipLine : LineClass
  | nameLine : List Char → LineClass
  | breakLine : LineClass
deriving DecidableEq

/-- Whether a classification is a name line. -/
def isNameClass : LineClass → Bool
  | .nameLine _ => true
  | _ => false

/-- The cleaned text of a name-line classification. -/
def nameOfClass : LineClass → Option (List Char)
  | .nameLine s => some s
  | _ => none

/-- Line classification exactly as claim C2 words it: only lines with no
alphabetic characters are skipped; every other line is classified, as a
name line when it has at least 3 characters after cleaning and all its
alphabetic characters are uppercase, and as a collection-stopping line
otherwise. -/
def classifyLineClaimedC2 (line : List Char) : LineClass :=
  let cleaned := clean_text line
  if cleaned.filter Char.isAlpha = [] then .skipLine
  else if (cleaned.filter Char.isAlpha).all Char.isUpper = true ∧ 3 ≤ cleaned.length then
    .nameLine cleaned
  else .breakLine

/-- Line classification as the code actually behaves: lines whose cleaned
form is shorter than 2 characters are also skipped without being
classified. -/
def classifyLineAmendedC2 (line : List Char) : LineClass :=
  let cleaned := clean_text line
  if cleaned.length < 2 then .skipLine
  else if cleaned.filter Char.isAlpha = [] then .skipLine
  else if (cleaned.filter Char.isAlpha).all Char.isUpper = true ∧ 3 ≤ cleaned.length then
    .nameLine cleaned
  else .breakLine

/-- The parser described declaratively from a line classification: ignore
skipped lines, take the first contiguous run of name lines, join with
single spaces. -/
def parseByClassification (classify : List Char → LineClass) (text : List Char) :
    Option (List Char) :=
  let cs := ((tooltipLines text).map classify).filter (fun c => c ≠ .skipLine)
  let run := (cs.dropWhile (fun c => !isNameClass c)).takeWhile isNameClass
  let names := run.filterMap nameOfClass
  if names = [] then none else some (List.intercalate [' '] names)

/-- The parser claim C2 describes (word for word). -/
def parse_specC2_claimed (text : List Char) : Option (List Char) :=
  parseByClassification classifyLineClaimedC2 text

/-- The parser with the amended (code-accurate) classification. -/
def parse_specC2_amended (text : List Char) : Option (List Char) :=
  parseByClassification classifyLineAmendedC2 text

/-! ### `OCREngine._fuzzy_match` (ocr.py 519-537) -/

/-- Python's `needle in hay` substring containment for strings. -/
def strContainsSub (needle : List Char) : List Char → Bool
  | [] => needle.isEmpty
  | c :: rest => needle.isPrefixOf (c :: rest) || strContainsSub needle rest

/-- The character-overlap fraction of `_fuzzy_match` (ocr.py 533-535):
`len(set(text) & set(target)) / len(set(target))` as an exact rational
(the only values compared are multiples of `1 / len(set(target))`, which
are exactly representable as Python floats for the fixed target
`INVENTORY`, so `ℚ` is faithful). -/
def charOverlapFrac (text target : List Char) : ℚ :=
  ((text.dedup.filter (fun c => target.dedup.contains c)).length : ℚ) /
    (target.dedup.length : ℚ)

/-- Models `OCREngine._fuzzy_match` (ocr.py 519-537): empty text never matches;
a substring occurrence of the target matches; otherwise match exactly when
the distinct-character overlap fraction reaches the threshold. -/
def fuzzy_match (text target : List Char) (threshold : ℚ) : Bool :=
  if text.isEmpty then false
  else if strContainsSub target text then true
  else decide (threshold ≤ charOverlapFrac text target)

/-- Models `OCREngine.TRIGGER_WORD` (ocr.py 67). -/
def TRIGGER_WORD : List Char := chars "INVENTORY"

/-- The matcher exactly as claim C5 words it for the fixed target: match iff
the target occurs as a substring or the distinct-character overlap fraction
is at least `0.7`. -/
def fuzzy_match_specC5 (text target : List Char) : Bool :=
  strContainsSub target text || decide ((7 : ℚ) / 10 ≤ charOverlapFrac text target)

/-! ### `OCREngine.capture_around_cursor` clamping (ocr.py 124-134) -/

/-- The capture rectangle of `capture_around_cursor` (ocr.py 124-134):
offsets applied to the cursor, then the code's clamping of the four
coordinates. -/
def captureBounds (cx cy offX offY w h sw sh : Int) : Int × Int × Int × Int :=
  let left := cx + offX
  let top := cy + offY
  let right := left + w
  let bottom := top + h
  let left := max 0 (min left (sw - 1))
  let top := max 0 (min top (sh - 1))
  let right := max (left + 1) (min right sw)
  let bottom := max (top + 1) (min bottom sh)
  (left, top, right, bottom)

/-- Clamp a value into `[lo, hi]`. -/
def clampInt (v lo hi : Int) : Int := max lo (min v hi)

/-- The clamping exactly as claim C6 words it: all four raw coordinates
clamped to `[0, screenWidth]` resp. `[0, screenHeight]`. -/
def captureBoundsSpecC6 (cx cy offX offY w h sw sh : Int) : Int × Int × Int × Int :=
  let left := cx + offX
  let top := cy + offY
  let right := left + w
  let bottom := top + h
  (clampInt left 0 sw, clampInt top 0 sh, clampInt right 0 sw, clampInt bottom 0 sh)

/-- The clamping the code performs, written with `clampInt`: `left`/`top`
are clamped to `[0, screen-1]`, and `right`/`bottom` to
`[left+1, screenWidth]` resp. `[top+1, screenHeight]`. -/
def captureBoundsAmendedC6 (cx cy offX offY w h sw sh : Int) : Int × Int × Int × Int :=
  let left0 := cx + offX
  let top0 := cy + offY
  let left := clampInt left0 0 (sw - 1)
  let top := clampInt top0 0 (sh - 1)
  (left, top, clampInt (left0 + w) (left + 1) sw, clampInt (top0 + h) (top + 1) sh)

/-! ### Images and the two preprocessing pipelines (ocr.py 166-194, 196-301) -/

/-- An RGB sample, one numpy `uint8` triple. -/
abbrev RGB := Nat × Nat × Nat

/-- An RGB capture: the numpy array `np.array(image)` of shape `(h, w, 3)`,
as a list of rows of RGB samples. -/
structure RGBImage where
  rows : List (List RGB)
deriving DecidableEq

/-- Image height (`image.height`, numpy `shape[0]`). -/
def RGBImage.height (img : RGBImage) : Nat := img.rows.length

/-- Image width (`image.width`, numpy `shape[1]`). -/
def RGBImage.width (img : RGBImage) : Nat := (img.rows.headD []).length

/-- A single-channel (`"L"` mode) image. -/
structure GrayImage where
  rows : List (List Nat)
deriving DecidableEq

/-- Gray image height. -/
def GrayImage.height (img : GrayImage) : Nat := img.rows.length

/-- Gray image width. -/
def GrayImage.width (img : GrayImage) : Nat := (img.rows.headD []).length

/-- Models `Image.new("L", (w, h), 255)`: the all-white gray image of the given
size. -/
def blankGray (w h : Nat) : GrayImage :=
  ⟨List.replicate h (List.replicate w 255)⟩

/-- Membership of one pixel in the tooltip-background band (ocr.py 204-208):
`lower_bound = [240, 225, 210]`, `upper_bound = [255, 250, 240]`, all three
channels inside their bounds. -/
def isCream (p : RGB) : Bool :=
  decide (240 ≤ p.1 ∧ p.1 ≤ 255 ∧ 225 ≤ p.2.1 ∧ p.2.1 ≤ 250 ∧ 210 ≤ p.2.2 ∧ p.2.2 ≤ 240)

/-- The boolean background mask (ocr.py 208). -/
def creamMask (img : RGBImage) : List (List Bool) :=
  img.rows.map (fun row => row.map isCream)

/-- Count of `true` entries in column `j` of a boolean grid
(numpy `np.sum(mask, axis=0)` at index `j`). -/
def colTrueCount (m : List (List Bool)) (j : Nat) : Nat :=
  (m.map (fun row => row.getD j false)).count true

/-- Models `np.where(row_cream_percentage > 0.5)[0]` (ocr.py 211, 215): the row
indices whose background fraction exceeds one half. -/
def creamRowIdx (img : RGBImage) : List Nat :=
  (List.range img.height).filter
    (fun i => (1 : ℚ) / 2 < (((creamMask img).getD i []).count true : ℚ) / (img.width : ℚ))

/-- Models `np.where(col_cream_percentage > 0.3)[0]` (ocr.py 212, 216): the column
indices whose background fraction exceeds `0.3`. -/
def creamColIdx (img : RGBImage) : List Nat :=
  (List.range img.width).filter
    (fun j => (3 : ℚ) / 10 < (colTrueCount (creamMask img) j : ℚ) / (img.height : ℚ))

/-- numpy slicing `a[y0:y1, x0:x1]` on a grid. -/
def crop2d (rows : List (List α)) (y0 y1 x0 x1 : Nat) : List (List α) :=
  ((rows.drop y0).take (y1 - y0)).map (fun r => (r.drop x0).take (x1 - x0))

/-- The first crop bounds (ocr.py 222-223): `y_min, y_max = cream_rows[0],
cream_rows[-1]` and likewise for columns (both guarded non-empty at the
call site). -/
def firstCropBounds (img : RGBImage) : Nat × Nat × Nat × Nat :=
  ((creamRowIdx img).headD 0, (creamRowIdx img).getLastD 0,
    (creamColIdx img).headD 0, (creamColIdx img).getLastD 0)

/-- Models `tight_cols` (ocr.py 230-231): within the cropped mask, the column
indices whose background fraction exceeds one half.  numpy keeps the
column count `x_max - x_min` even when the crop has zero rows, and
`0 / 0` comparisons are falsy there just as `ℚ` division by zero yields
`0` here. -/
def tightColIdx (img : RGBImage) : List Nat :=
  let b := firstCropBounds img
  let croppedMask := crop2d (creamMask img) b.1 b.2.1 b.2.2.1 b.2.2.2
  (List.range (b.2.2.2 - b.2.2.1)).filter
    (fun j => (1 : ℚ) / 2 < (colTrueCount croppedMask j : ℚ) / (croppedMask.length : ℚ))

/-- Colorfulness test of one pixel (ocr.py 249-254): channel spread above 30
and maximal channel strictly between 80 and 240. -/
def isColored (p : RGB) : Bool :=
  let maxRGB := max p.1 (max p.2.1 p.2.2)
  let minRGB := min p.1 (min p.2.1 p.2.2)
  decide (30 < maxRGB - minRGB ∧ 80 < maxRGB ∧ maxRGB < 240)

/-- Dark-text test of one pixel (ocr.py 267): all three channels below 100. -/
def isDark (p : RGB) : Bool :=
  decide (p.1 < 100 ∧ p.2.1 < 100 ∧ p.2.2 < 100)

/-- The binarized text mask built on the non-fallback path of
`preprocess_tooltip` (ocr.py 222-271): first crop to the cream bounding
box, tight-crop the columns, flag rows with more than 5% colored pixels,
and paint dark-text pixels of unflagged rows black on white. -/
def tooltipTextMask (img : RGBImage) : List (List Nat) :=
  let b := firstCropBounds img
  let cropped := crop2d img.rows b.1 b.2.1 b.2.2.1 b.2.2.2
  let tc := tightColIdx img
  let tightXMin := tc.headD 0
  let tightXMax := tc.getLastD 0
  let tightCropped := cropped.map (fun r => (r.drop tightXMin).take (tightXMax - tightXMin))
  let tightWidth := tightXMax - tightXMin
  tightCropped.map (fun row =>
    let rowColorFrac : ℚ := ((row.filter isColored).length : ℚ) / (tightWidth : ℚ)
    let rowHasSignificantColor := decide ((1 : ℚ) / 20 < rowColorFrac)
    row.map (fun p => if !rowHasSignificantColor && isDark p then 0 else 255))

/-- Models `OCREngine.preprocess_tooltip` (ocr.py 196-301).  `resample` stands for
the external PIL bilinear `Image.resize` (applied with scale factor 2 on
the non-fallback path only); both fallbacks (ocr.py 218-220 and 233-235)
return `Image.new("L", (image.width * 2, image.height * 2), 255)` without
raising.  Debug-mode file writes are side effects outside the model. -/
def preprocess_tooltip (resample : List (List Nat) → Nat → List (List Nat))
    (img : RGBImage) : GrayImage :=
  if creamRowIdx img = [] ∨ creamColIdx img = [] then
    blankGray (2 * img.width) (2 * img.height)
  else if tightColIdx img = [] then
    blankGray (2 * img.width) (2 * img.height)
  else
    ⟨resample (tooltipTextMask img) 2⟩

/-- A stand-in for the external resampling filter, used only to instantiate
theorems at concrete inputs whose evaluation never reaches the resampling
step. -/
def trivialResample (g : List (List Nat)) (_ : Nat) : List (List Nat) := g

/-- Pillow's RGB-to-luminance conversion (`image.convert("L")`, ITU-R 601-2:
`L = (R*19595 + G*38470 + B*7471) >> 16`). -/
def luma (p : RGB) : Nat :=
  (p.1 * 19595 + p.2.1 * 38470 + p.2.2 * 7471) / 65536

/-- Models `OCREngine.preprocess_for_ocr` (ocr.py 166-194): grayscale, upscale via
the external smooth resampling filter when `scale > 1`, optionally invert
(`ImageOps.invert`: `255 - x`), threshold at the fixed midpoint 128
(`255 if x > 128 else 0`).  The call sites use `invert=True, scale=2`. -/
def preprocess_for_ocr (resample : List (List Nat) → Nat → List (List Nat))
    (image : RGBImage) (invert : Bool) (scale : Nat) : GrayImage :=
  let gray := image.rows.map (fun row => row.map luma)
  let gray := if 1 < scale then resample gray scale else gray
  let gray := if invert then gray.map (fun row => row.map (fun x => 255 - x)) else gray
  ⟨gray.map (fun row => row.map (fun x => if 128 < x then 255 else 0))⟩

/-! ### Scanner (main.py 47-270) -/

/-- Models `ScannerState` (main.py 47-53). -/
inductive ScannerState where
  | idle | active | paused | stopped
deriving DecidableEq

/-- Models `database.Item` (database.py): the recommendation record. -/
structure Item where
  name : String
  action : String
  recycle_for : Option String
  keep_for : Option String
deriving DecidableEq

/-- The statistics fields of `ScannerStats` (main.py 96-106). -/
structure ScannerStats where
  trigger_scans : Nat
  tooltip_scans : Nat
  items_detected : Nat
  items_found_in_db : Nat
  last_item : Option String
  last_item_time : ℚ
deriving DecidableEq

/-- The cooldown-tracking fields `_last_shown_item` / `_last_shown_time`
(main.py 126-127). -/
structure CooldownState where
  last_shown_item : String
  last_shown_time : ℚ
deriving DecidableEq

/-- Outcome of `Scanner._handle_detected_item`: the updated stats and
cooldown entry, the database lookups issued, and the display requests
posted to the overlay. -/
structure HandlerResult where
  stats : ScannerStats
  cooldown : CooldownState
  lookups : List String
  displays : List (String × Option Item)
deriving DecidableEq

/-- Models `Scanner._handle_detected_item` (main.py 223-253).  `lookup` is the
external database boundary, `current_time` the `time.time()` reading,
`cooldownWindow` the `settings.overlay.cooldown` value.  When the candidate
equals the last shown item and the elapsed time is strictly below the
window, it returns early; otherwise it updates the stats, looks the name
up, posts a display request, and updates the cooldown entry. -/
def handle_detected_item (cooldownWindow : ℚ) (lookup : String → Option Item)
    (stats : ScannerStats) (cd : CooldownState) (item_name : String)
    (current_time : ℚ) : HandlerResult :=
  if item_name = cd.last_shown_item ∧ current_time - cd.last_shown_time < cooldownWindow then
    ⟨stats, cd, [], []⟩
  else
    let stats1 := { stats with
      items_detected := stats.items_detected + 1
      last_item := some item_name
      last_item_time := current_time }
    let recommendation := lookup item_name
    let stats2 :=
      if recommendation.isSome then
        { stats1 with items_found_in_db := stats1.items_found_in_db + 1 }
      else stats1
    ⟨stats2, ⟨item_name, current_time⟩, [item_name], [(item_name, recommendation)]⟩

/-- Observable boundary interactions of one scan-loop tick: status updates,
sleeps, OCR trigger checks, tooltip scans, display requests, error logs. -/
inductive LoopEffect where
  | statusEff (s : String)
  | sleepEff (seconds : ℚ)
  | triggerCheckEff
  | tooltipScanEff
  | displayEff (name : String) (rec : Option Item)
  | logErrorEff (msg : String)
deriving DecidableEq

/-- The scan-interval and cooldown configuration read by the loop
(`settings.scan.*`, `settings.overlay.cooldown`). -/
structure ScanConfig where
  trigger_scan_interval : ℚ
  tooltip_scan_interval : ℚ
  cooldown : ℚ
deriving DecidableEq

/-- The loop-owned mutable state of `Scanner`: the state machine value, the
stats, the cooldown entry and `_trigger_check_counter`. -/
structure LoopState where
  state : ScannerState
  stats : ScannerStats
  cooldown : CooldownState
  trigger_check_counter : Nat
deriving DecidableEq

/-- One tick's readings of the external world: the outcome of
`check_trigger_any` (an exception or a boolean), the outcome of
`extract_item_name_at_cursor` (an exception, no name, or a name), the
database boundary, and the clock. -/
structure TickOracle where
  trigger_hit : Except String Bool
  extract_result : Except String (Option String)
  lookup : String → Option Item
  now : ℚ

/-- Result of one iteration of `Scanner._scan_loop`'s `while` body: the
updated loop state, the boundary effects in program order, and whether the
iteration exited the loop (`break`). -/
structure ScanIterResult where
  after : LoopState
  effects : List LoopEffect
  exited : Bool
deriving DecidableEq

/-- Models the tooltip-extraction half of the `ACTIVE` branch of
`Scanner._scan_loop` (main.py 208-216): extract the item name at the
cursor, bump `tooltip_scans`, handle a truthy (non-empty) detected name,
sleep the tooltip interval.  `st` already carries this tick's
`_trigger_check_counter` increment and `checkEffs` the effects of the
re-check already performed this tick; a raising extraction carries both
out of the tick, since the `except` handler undoes nothing. -/
def scan_active_extract (cfg : ScanConfig) (o : TickOracle) (st : LoopState)
    (checkEffs : List LoopEffect) :
    Except (String × LoopState × List LoopEffect)
      (LoopState × List LoopEffect × Bool) :=
  match o.extract_result with
  | .error e => .error (e, st, checkEffs)
  | .ok item_name =>
    let stats1 := { st.stats with tooltip_scans := st.stats.tooltip_scans + 1 }
    match item_name with
    | some name =>
      if name.isEmpty then
        .ok ({ st with stats := stats1 },
          checkEffs ++ [.tooltipScanEff, .sleepEff cfg.tooltip_scan_interval], false)
      else
        let r := handle_detected_item cfg.cooldown o.lookup stats1 st.cooldown name o.now
        let st' := { st with
          stats := r.stats
          cooldown := r.cooldown }
        .ok (st',
          checkEffs ++ [.tooltipScanEff]
            ++ r.displays.map (fun d => .displayEff d.1 d.2)
            ++ [.sleepEff cfg.tooltip_scan_interval], false)
    | none =>
      .ok ({ st with stats := stats1 },
        checkEffs ++ [.tooltipScanEff, .sleepEff cfg.tooltip_scan_interval], false)

/-- Models the `try`-block of one iteration of `Scanner._scan_loop`
(main.py 166-217), as a fallible computation.  `PAUSED` sleeps 0.1 s;
`STOPPED` breaks; `IDLE` reports scanning, runs the trigger check and on a
hit activates, otherwise sleeps the trigger interval, incrementing
`trigger_scans` either way; `ACTIVE` increments `_trigger_check_counter`
first (main.py 196, before any fallible call), re-checks the trigger only
when the counter is divisible by 3 (Python's `and` short-circuit: no OCR
call otherwise), returns to `IDLE` when that re-check misses, and
otherwise runs the extraction phase.  An `.error` models an exception
escaping the block and carries, besides the message, the loop state as
mutated up to the raise point — the `except` handler keeps such partial
mutations, in particular the Active branch's counter increment — and the
boundary effects already performed before the raise. -/
def scan_tick_body (cfg : ScanConfig) (o : TickOracle) (st : LoopState) :
    Except (String × LoopState × List LoopEffect)
      (LoopState × List LoopEffect × Bool) :=
  if st.state = ScannerState.paused then
    .ok (st, [.sleepEff (1 / 10)], false)
  else if st.state = ScannerState.stopped then
    .ok (st, [], true)
  else if st.state = ScannerState.idle then
    match o.trigger_hit with
    | .error e => .error (e, st, [.statusEff "scanning"])
    | .ok hit =>
      let stats1 := { st.stats with trigger_scans := st.stats.trigger_scans + 1 }
      if hit then
        .ok ({ st with state := .active, stats := stats1 },
          [.statusEff "scanning", .triggerCheckEff, .statusEff "active"], false)
      else
        .ok ({ st with stats := stats1 },
          [.statusEff "scanning", .triggerCheckEff, .sleepEff cfg.trigger_scan_interval],
          false)
  else
    let counter := st.trigger_check_counter + 1
    let stC := { st with trigger_check_counter := counter }
    let should_check_trigger := counter % 3 == 0
    if should_check_trigger then
      match o.trigger_hit with
      | .error e => .error (e, stC, [])
      | .ok hit =>
        if !hit then
          .ok ({ stC with state := .idle },
            [.triggerCheckEff, .statusEff "scanning"], false)
        else
          scan_active_extract cfg o stC [LoopEffect.triggerCheckEff]
    else
      scan_active_extract cfg o stC []

/-- Models one iteration of `Scanner._scan_loop` (main.py 166-221) including
the `except Exception` handler: a raising tick is caught with whatever
state mutations and boundary effects it had already made, logs the error,
reports the error status, backs off 1 s, and the loop continues. -/
def scan_loop_iteration (cfg : ScanConfig) (o : TickOracle) (st : LoopState) :
    ScanIterResult :=
  match scan_tick_body cfg o st with
  | .ok (st', effs, brk) => ⟨st', effs, brk⟩
  | .error (e, stE, preEffs) =>
    ⟨stE, preEffs ++ [.logErrorEff e, .statusEff "error", .sleepEff 1], false⟩

/-! ## Theorems -/

/-- Claim C5: the fuzzy matcher matches exactly when the target occurs as a
substring or the distinct-character overlap fraction is at least 0.7, and in
particular `match("INVENTORY")` and `match("INVENT0RY")` hold while
`match("XYZ")` does not (target `INVENTORY`, threshold 0.7 as at the call
site, ocr.py 400/520). -/
theorem fuzzy_match_trigger_word_characterization :
    (∀ text : List Char,
      fuzzy_match text TRIGGER_WORD ((7 : ℚ) / 10) = fuzzy_match_specC5 text TRIGGER_WORD) ∧
    fuzzy_match (chars "INVENTORY") TRIGGER_WORD ((7 : ℚ) / 10) = true ∧
    fuzzy_match (chars "INVENT0RY") TRIGGER_WORD ((7 : ℚ) / 10) = true ∧
    fuzzy_match (chars "XYZ") TRIGGER_WORD ((7 : ℚ) / 10) = false := by
  have hgen : ∀ text : List Char,
      fuzzy_match text TRIGGER_WORD ((7 : ℚ) / 10) = fuzzy_match_specC5 text TRIGGER_WORD := by
    intro text
    cases text with
    | nil =>
      have hsub : strContainsSub TRIGGER_WORD ([] : List Char) = false := by decide
      have h0 : charOverlapFrac [] TRIGGER_WORD = 0 := by
        simp [charOverlapFrac]
      rw [show fuzzy_match [] TRIGGER_WORD ((7 : ℚ) / 10) = false from rfl,
        fuzzy_match_specC5, hsub, h0]
      simp only [Bool.false_or]
      rw [decide_eq_false (by norm_num : ¬((7 : ℚ) / 10 ≤ 0))]
    | cons c t =>
      simp only [fuzzy_match, fuzzy_match_specC5, List.isEmpty_cons, Bool.false_eq_true,
        if_false]
      cases h : strContainsSub TRIGGER_WORD (c :: t) <;> simp [h]
  have hden : TRIGGER_WORD.dedup.length = 8 := by decide
  refine ⟨hgen, ?_, ?_, ?_⟩
  · rw [hgen]
    have hsub : strContainsSub TRIGGER_WORD (chars "INVENTORY") = true := by decide
    simp [fuzzy_match_specC5, hsub]
  · rw [hgen]
    have hsub : strContainsSub TRIGGER_WORD (chars "INVENT0RY") = false := by decide
    have hfrac : charOverlapFrac (chars "INVENT0RY") TRIGGER_WORD = 7 / 8 := by
      rw [charOverlapFrac,
        show ((chars "INVENT0RY").dedup.filter
          (fun c => TRIGGER_WORD.dedup.contains c)).length = 7 from by decide, hden]
      norm_num
    rw [fuzzy_match_specC5, hsub, hfrac]
    simp only [Bool.false_or]
    rw [decide_eq_true (by norm_num : (7 : ℚ) / 10 ≤ 7 / 8)]
  · rw [hgen]
    have hsub : strContainsSub TRIGGER_WORD (chars "XYZ") = false := by decide
    have hfrac : charOverlapFrac (chars "XYZ") TRIGGER_WORD = 1 / 8 := by
      rw [charOverlapFrac,
        show ((chars "XYZ").dedup.filter
          (fun c => TRIGGER_WORD.dedup.contains c)).length = 1 from by decide, hden]
      norm_num
    rw [fuzzy_match_specC5, hsub, hfrac]
    simp only [Bool.false_or]
    rw [decide_eq_false (by norm_num : ¬((7 : ℚ) / 10 ≤ 1 / 8))]

/-- Claim C6 as stated is false: the code clamps `left` to
`[0, screenWidth - 1]`, not to `[0, screenWidth]`.  At cursor x = 100 on a
100-pixel-wide screen with zero offset the code yields `left = 99` while
the claimed clamping yields `left = 100`. -/
theorem captureBounds_clamping_counterexample :
    captureBounds 100 0 0 0 50 50 100 100 ≠ captureBoundsSpecC6 100 0 0 0 50 50 100 100 ∧
    (captureBounds 100 0 0 0 50 50 100 100).1 = 99 ∧
    (captureBoundsSpecC6 100 0 0 0 50 50 100 100).1 = 100 := by
  decide

/-- Claim C6, amended: the raw rectangle `left = cx + offsetX`,
`top = cy + offsetY`, `right = left + width`, `bottom = top + height` is
clamped with `left`/`top` into `[0, screenWidth-1]` × `[0, screenHeight-1]`
and `right`/`bottom` into `[left+1, screenWidth]` × `[top+1, screenHeight]`;
in particular for a cursor at (0,0), non-positive offsets and a non-trivial
screen, the resolved `left` and `top` are exactly 0, never negative. -/
theorem captureBounds_clamping_amended :
    (∀ cx cy offX offY w h sw sh : Int,
      captureBounds cx cy offX offY w h sw sh =
        captureBoundsAmendedC6 cx cy offX offY w h sw sh) ∧
    (∀ offX offY w h sw sh : Int, offX ≤ 0 → offY ≤ 0 → 1 ≤ sw → 1 ≤ sh →
      (captureBounds 0 0 offX offY w h sw sh).1 = 0 ∧
      (captureBounds 0 0 offX offY w h sw sh).2.1 = 0) := by
  refine ⟨fun cx cy offX offY w h sw sh => rfl, ?_⟩
  intro offX offY w h sw sh h1 h2 h3 h4
  simp only [captureBounds]
  constructor <;> omega

/-- Witness for `captureBounds_clamping_amended` at the concrete input
cursor (0,0), offsets (-50,-30), screen 1920 × 1080. -/
theorem captureBounds_clamping_amended_witness :
    captureBounds 0 0 (-50) (-30) 350 250 1920 1080 =
      captureBoundsAmendedC6 0 0 (-50) (-30) 350 250 1920 1080 ∧
    (captureBounds 0 0 (-50) (-30) 350 250 1920 1080).1 = 0 ∧
    (captureBounds 0 0 (-50) (-30) 350 250 1920 1080).2.1 = 0 :=
  ⟨captureBounds_clamping_amended.1 0 0 (-50) (-30) 350 250 1920 1080,
    captureBounds_clamping_amended.2 (-50) (-30) 350 250 1920 1080
      (by decide) (by decide) (by decide) (by decide)⟩

/-- Claim C9: for any cursor position, capture configuration and screen of
size at least 1 × 1, the clamped rectangle satisfies
`0 ≤ left < right ≤ screenWidth` and `0 ≤ top < bottom ≤ screenHeight`:
it is non-empty and entirely on the screen. -/
theorem captureBounds_rect_in_screen (cx cy offX offY w h sw sh : Int)
    (hsw : 1 ≤ sw) (hsh : 1 ≤ sh) :
    0 ≤ (captureBounds cx cy offX offY w h sw sh).1 ∧
    (captureBounds cx cy offX offY w h sw sh).1 <
      (captureBounds cx cy offX offY w h sw sh).2.2.1 ∧
    (captureBounds cx cy offX offY w h sw sh).2.2.1 ≤ sw ∧
    0 ≤ (captureBounds cx cy offX offY w h sw sh).2.1 ∧
    (captureBounds cx cy offX offY w h sw sh).2.1 <
      (captureBounds cx cy offX offY w h sw sh).2.2.2 ∧
    (captureBounds cx cy offX offY w h sw sh).2.2.2 ≤ sh := by
  simp only [captureBounds]
  refine ⟨?_, ?_, ?_, ?_, ?_, ?_⟩ <;> omega

/-- Witness for `captureBounds_rect_in_screen`: a configured rectangle lying
entirely off-screen (cursor (0,0), offsets (-500,-400), size 350 × 250)
still resolves to an on-screen non-empty rectangle. -/
theorem captureBounds_rect_in_screen_witness :
    0 ≤ (captureBounds 0 0 (-500) (-400) 350 250 1920 1080).1 ∧
    (captureBounds 0 0 (-500) (-400) 350 250 1920 1080).1 <
      (captureBounds 0 0 (-500) (-400) 350 250 1920 1080).2.2.1 ∧
    (captureBounds 0 0 (-500) (-400) 350 250 1920 1080).2.2.1 ≤ 1920 ∧
    0 ≤ (captureBounds 0 0 (-500) (-400) 350 250 1920 1080).2.1 ∧
    (captureBounds 0 0 (-500) (-400) 350 250 1920 1080).2.1 <
      (captureBounds 0 0 (-500) (-400) 350 250 1920 1080).2.2.2 ∧
    (captureBounds 0 0 (-500) (-400) 350 250 1920 1080).2.2.2 ≤ 1080 :=
  captureBounds_rect_in_screen 0 0 (-500) (-400) 350 250 1920 1080
    (by decide) (by decide)

/-- Claim C7: an exception escaping the tick body is caught by the loop-level
handler, which logs it, reports the error status and sleeps the fixed
1-second backoff after whatever boundary effects the tick had already
performed, and the loop is not exited; the handler keeps the state
mutations made before the raise — nothing for a failing Idle tick, and
exactly the already-applied `_trigger_check_counter` increment
(main.py 196) for a failing Active tick. -/
theorem scan_loop_survives_tick_error (cfg : ScanConfig) (o : TickOracle)
    (st : LoopState) (e : String) (stE : LoopState) (preEffs : List LoopEffect)
    (herr : scan_tick_body cfg o st = .error (e, stE, preEffs)) :
    scan_loop_iteration cfg o st =
      ⟨stE, preEffs ++ [.logErrorEff e, .statusEff "error", .sleepEff 1], false⟩ ∧
    (st.state = ScannerState.idle → stE = st) ∧
    (st.state = ScannerState.active →
      stE = { st with trigger_check_counter := st.trigger_check_counter + 1 }) := by
  refine ⟨by simp [scan_loop_iteration, herr], fun hidle => ?_, fun hact => ?_⟩
  · cases htr : o.trigger_hit with
    | error e' =>
      simp [scan_tick_body, hidle, htr] at herr
      exact herr.2.1.symm
    | ok hit =>
      cases hit <;> simp [scan_tick_body, hidle, htr] at herr
  · cases hsc : (st.trigger_check_counter + 1) % 3 == 0 with
    | true =>
      cases htr : o.trigger_hit with
      | error e' =>
        simp [scan_tick_body, hact, hsc, htr] at herr
        rw [← herr.2.1, hact]
      | ok hit =>
        cases hit with
        | false => simp [scan_tick_body, hact, hsc, htr] at herr
        | true =>
          cases hex : o.extract_result with
          | error e' =>
            simp [scan_tick_body, scan_active_extract, hact, hsc, htr, hex] at herr
            rw [← herr.2.1, hact]
          | ok item =>
            cases item with
            | none =>
              simp [scan_tick_body, scan_active_extract, hact, hsc, htr, hex] at herr
            | some name =>
              cases hne : name.isEmpty <;>
                simp [scan_tick_body, scan_active_extract, hact, hsc, htr, hex, hne] at herr
    | false =>
      cases hex : o.extract_result with
      | error e' =>
        simp [scan_tick_body, scan_active_extract, hact, hsc, hex] at herr
        rw [← herr.2.1, hact]
      | ok item =>
        cases item with
        | none =>
          simp [scan_tick_body, scan_active_extract, hact, hsc, hex] at herr
        | some name =>
          cases hne : name.isEmpty <;>
            simp [scan_tick_body, scan_active_extract, hact, hsc, hex, hne] at herr

/-- Witness for `scan_loop_survives_tick_error`: an Active tick (counter at
2, so tick 3 re-checks the trigger) whose screen grab raises is caught,
reported and backed off, the loop continues, and the counter increment
made before the raise is kept (the state after the failing tick carries
counter 3, not 2). -/
theorem scan_loop_survives_tick_error_witness :
    scan_loop_iteration ⟨2, 1/10, 2⟩
        ⟨.error "grab failed", .ok none, fun _ => none, 0⟩
        ⟨.active, ⟨0, 0, 0, 0, none, 0⟩, ⟨"", 0⟩, 2⟩ =
      ⟨⟨.active, ⟨0, 0, 0, 0, none, 0⟩, ⟨"", 0⟩, 3⟩,
        [.logErrorEff "grab failed", .statusEff "error", .sleepEff 1], false⟩ ∧
    (⟨.active, ⟨0, 0, 0, 0, none, 0⟩, ⟨"", 0⟩, 3⟩ : LoopState) =
      { (⟨.active, ⟨0, 0, 0, 0, none, 0⟩, ⟨"", 0⟩, 2⟩ : LoopState) with
        trigger_check_counter := 2 + 1 } :=
  ⟨(scan_loop_survives_tick_error ⟨2, 1/10, 2⟩
      ⟨.error "grab failed", .ok none, fun _ => none, 0⟩
      ⟨.active, ⟨0, 0, 0, 0, none, 0⟩, ⟨"", 0⟩, 2⟩ "grab failed"
      ⟨.active, ⟨0, 0, 0, 0, none, 0⟩, ⟨"", 0⟩, 3⟩ [] rfl).1,
    (scan_loop_survives_tick_error ⟨2, 1/10, 2⟩
      ⟨.error "grab failed", .ok none, fun _ => none, 0⟩
      ⟨.active, ⟨0, 0, 0, 0, none, 0⟩, ⟨"", 0⟩, 2⟩ "grab failed"
      ⟨.active, ⟨0, 0, 0, 0, none, 0⟩, ⟨"", 0⟩, 3⟩ [] rfl).2.2 rfl⟩

/-- Claim C8: whatever the input image, the external resampling filter, the
invert flag and the scale factor, every pixel the trigger pipeline outputs
is strictly two-level, either black (0) or white (255), because the final
step thresholds at the fixed midpoint 128. -/
theorem preprocess_for_ocr_two_level (resample : List (List Nat) → Nat → List (List Nat))
    (image : RGBImage) (invert : Bool) (scale : Nat) :
    ((preprocess_for_ocr resample image invert scale).rows.all
      (fun row => row.all (fun x => x == 0 || x == 255))) = true := by
  rw [List.all_eq_true]
  intro row hrow
  simp only [preprocess_for_ocr] at hrow
  obtain ⟨r0, -, rfl⟩ := List.mem_map.1 hrow
  rw [List.all_eq_true]
  intro x hx
  obtain ⟨x0, -, rfl⟩ := List.mem_map.1 hx
  split <;> rfl

/-- Helper for claim C10: every whitespace character in collapsed text is a
plain space. -/
theorem space_mem_collapseWSAux {c : Char} :
    ∀ (b : Bool) (l : List Char), c ∈ collapseWSAux b l → pyIsSpace c = true → c = ' ' := by
  intro b l
  induction l generalizing b with
  | nil => intro h; simp [collapseWSAux] at h
  | cons d rest ih =>
    intro h hsp
    cases hd : pyIsSpace d with
    | true =>
      cases b with
      | true =>
        rw [collapseWSAux, if_pos hd, if_pos rfl] at h
        exact ih true h hsp
      | false =>
        rw [collapseWSAux, if_pos hd, if_neg (Bool.false_ne_true)] at h
        rcases List.mem_cons.1 h with h' | h'
        · exact h'
        · exact ih true h' hsp
    | false =>
      rw [collapseWSAux, if_neg (by rw [hd]; exact Bool.false_ne_true)] at h
      rcases List.mem_cons.1 h with h' | h'
      · subst h'
        rw [hd] at hsp
        cases hsp
      · exact ih false h' hsp

/-- Helper for claim C10: collapsed text never adds characters beyond spaces
and the input's own characters. -/
theorem mem_collapseWSAux {c : Char} :
    ∀ (b : Bool) (l : List Char), c ∈ collapseWSAux b l → c = ' ' ∨ c ∈ l := by
  intro b l
  induction l generalizing b with
  | nil => intro h; simp [collapseWSAux] at h
  | cons d rest ih =>
    intro h
    cases hd : pyIsSpace d with
    | true =>
      cases b with
      | true =>
        rw [collapseWSAux, if_pos hd, if_pos rfl] at h
        exact (ih true h).imp_right (List.mem_cons_of_mem d)
      | false =>
        rw [collapseWSAux, if_pos hd, if_neg (Bool.false_ne_true)] at h
        rcases List.mem_cons.1 h with h' | h'
        · exact Or.inl h'
        · exact (ih true h').imp_right (List.mem_cons_of_mem d)
    | false =>
      rw [collapseWSAux, if_neg (by rw [hd]; exact Bool.false_ne_true)] at h
      rcases List.mem_cons.1 h with h' | h'
      · exact Or.inr (h' ▸ List.mem_cons_self d rest)
      · exact (ih false h').imp_right (List.mem_cons_of_mem d)

/-- Helper for claim C10: inside a run (`inRun = true`) the collapsed output
never starts with a whitespace character. -/
theorem head_collapseWSAux_true :
    ∀ (l : List Char) (c : Char),
      (collapseWSAux true l).head? = some c → pyIsSpace c = false := by
  intro l
  induction l with
  | nil => intro c h; simp [collapseWSAux] at h
  | cons d rest ih =>
    intro c h
    cases hd : pyIsSpace d with
    | true =>
      rw [collapseWSAux, if_pos hd, if_pos rfl] at h
      exact ih c h
    | false =>
      rw [collapseWSAux, if_neg (by rw [hd]; exact Bool.false_ne_true)] at h
      rw [List.head?_cons, Option.some_inj] at h
      rw [← h]
      exact hd

/-- Helper for claim C10: collapsed text has no two adjacent whitespace
characters. -/
theorem noSpaceRun_collapseWSAux :
    ∀ (b : Bool) (l : List Char), NoSpaceRun (collapseWSAux b l) := by
  intro b l
  induction l generalizing b with
  | nil => simp [collapseWSAux, NoSpaceRun]
  | cons d rest ih =>
    cases hd : pyIsSpace d with
    | true =>
      cases b with
      | true =>
        rw [collapseWSAux, if_pos hd, if_pos rfl]
        exact ih true
      | false =>
        rw [collapseWSAux, if_pos hd, if_neg (Bool.false_ne_true)]
        rw [NoSpaceRun, List.chain'_cons']
        refine ⟨fun y hy _ => ?_, ih true⟩
        exact head_collapseWSAux_true rest y hy
    | false =>
      rw [collapseWSAux, if_neg (by rw [hd]; exact Bool.false_ne_true)]
      rw [NoSpaceRun, List.chain'_cons']
      refine ⟨fun y _ hsp => ?_, ih false⟩
      rw [hd] at hsp
      cases hsp

/-- Helper for claim C10: text whose whitespace is already normalized — all
spaces plain, no adjacent pair, and (when resuming inside a run) no leading
space — is a fixed point of the collapsing pass. -/
theorem collapseWSAux_fixed :
    ∀ (l : List Char) (b : Bool), SpacesNormalized l → NoSpaceRun l →
      (b = true → ∀ c, l.head? = some c → pyIsSpace c = false) →
      collapseWSAux b l = l := by
  intro l
  induction l with
  | nil => intro b _ _ _; rfl
  | cons d rest ih =>
    intro b hsp hchain hhead
    cases hd : pyIsSpace d with
    | false =>
      rw [collapseWSAux, if_neg (by rw [hd]; exact Bool.false_ne_true)]
      congr 1
      exact ih false (fun c hc => hsp c (List.mem_cons_of_mem d hc))
        (List.Chain'.tail hchain) (fun h => Bool.noConfusion h)
    | true =>
      cases b with
      | true =>
        have := hhead rfl d (List.head?_cons)
        rw [hd] at this
        cases this
      | false =>
        rw [collapseWSAux, if_pos hd, if_neg (Bool.false_ne_true)]
        have hd' : d = ' ' := hsp d (List.mem_cons_self d rest) hd
        rw [hd']
        congr 1
        have hpair := (List.chain'_cons'.mp hchain).1
        exact ih true (fun c hc => hsp c (List.mem_cons_of_mem d hc))
          (List.Chain'.tail hchain)
          (fun _ c hc => hpair c hc hd)

/-- Helper for claim C10: stripping only removes characters. -/
theorem mem_pyStrip {c : Char} {l : List Char} (h : c ∈ pyStrip l) : c ∈ l :=
  (List.dropWhile_suffix pyIsSpace).sublist.subset
    (( List.rdropWhile_prefix pyIsSpace (List.dropWhile pyIsSpace l)).sublist.subset h)

/-- Helper for claim C10: stripping preserves the no-adjacent-whitespace
invariant. -/
theorem noSpaceRun_pyStrip {l : List Char} (h : NoSpaceRun l) : NoSpaceRun (pyStrip l) :=
  List.Chain'.prefix
    (List.Chain'.suffix h (List.dropWhile_suffix pyIsSpace))
    ( List.rdropWhile_prefix pyIsSpace (List.dropWhile pyIsSpace l))

/-- Helper for claim C10: a list with no leading whitespace keeps that
property after its trailing whitespace is dropped. -/
theorem dropWhile_rdropWhile_eq {p : Char → Bool} {u : List Char}
    (h : List.dropWhile p u = u) :
    List.dropWhile p (List.rdropWhile p u) = List.rdropWhile p u := by
  cases e : List.rdropWhile p u with
  | nil => rfl
  | cons a s =>
    have hpref := List.rdropWhile_prefix p u
    rw [e] at hpref
    obtain ⟨t, ht⟩ := hpref
    have hpa : p a = false := by
      by_contra hpa
      rw [Bool.not_eq_false] at hpa
      rw [← ht, List.cons_append, List.dropWhile_cons, if_pos hpa] at h
      have hlen := congrArg List.length h
      have hle : (List.dropWhile p (s ++ t)).length ≤ (s ++ t).length :=
        (List.dropWhile_suffix p).sublist.length_le
      simp only [List.length_cons, List.length_append] at hlen hle
      omega
    rw [List.dropWhile_cons, if_neg (by rw [hpa]; exact Bool.false_ne_true)]

/-- Helper for claim C10: Python `strip` is idempotent. -/
theorem pyStrip_idem (l : List Char) : pyStrip (pyStrip l) = pyStrip l := by
  unfold pyStrip
  rw [dropWhile_rdropWhile_eq (List.dropWhile_idempotent pyIsSpace l),
    List.rdropWhile_idempotent]

/-- Helper for claim C10: cleaned text contains only plain spaces as
whitespace. -/
theorem spacesNormalized_clean_text (s : List Char) : SpacesNormalized (clean_text s) :=
  fun _ hc hsp => space_mem_collapseWSAux false (removeArtifacts s) (mem_pyStrip hc) hsp

/-- Helper for claim C10: cleaned text has no adjacent whitespace pair. -/
theorem noSpaceRun_clean_text (s : List Char) : NoSpaceRun (clean_text s) :=
  noSpaceRun_pyStrip (noSpaceRun_collapseWSAux false (removeArtifacts s))

/-- Helper for claim C10: cleaned text is free of artifact characters, so
the artifact-removal pass is the identity on it. -/
theorem removeArtifacts_clean_text (s : List Char) :
    removeArtifacts (clean_text s) = clean_text s := by
  rw [removeArtifacts, List.filter_eq_self]
  intro c hc
  rcases mem_collapseWSAux false (removeArtifacts s) (mem_pyStrip hc) with h | h
  · subst h
    decide
  · rw [removeArtifacts] at h
    exact (List.mem_filter.1 h).2

/-- Helper for claim C10: cleaned text is a fixed point of the
whitespace-collapsing pass. -/
theorem collapseWS_clean_text (s : List Char) :
    collapseWS (clean_text s) = clean_text s :=
  collapseWSAux_fixed (clean_text s) false (spacesNormalized_clean_text s)
    (noSpaceRun_clean_text s) (fun h => Bool.noConfusion h)

/-- Claim C10: the OCR text cleaner is idempotent — cleaning already-cleaned
text changes nothing, since cleaned text has no artifact characters, all
its whitespace is single plain spaces, and it neither starts nor ends with
whitespace. -/
theorem clean_text_idempotent (s : List Char) :
    clean_text (clean_text s) = clean_text s := by
  have h3 : pyStrip (clean_text s) = clean_text s :=
    pyStrip_idem (collapseWS (removeArtifacts s))
  calc clean_text (clean_text s)
      = pyStrip (collapseWS (removeArtifacts (clean_text s))) := rfl
    _ = pyStrip (collapseWS (clean_text s)) := by rw [removeArtifacts_clean_text]
    _ = pyStrip (clean_text s) := by rw [collapseWS_clean_text]
    _ = clean_text s := h3

/-- Helper for claim C2: the collection loop with `found_name` already set
collects exactly the leading run of name lines among the classified
(non-skipped) lines. -/
theorem collectNameLines_true_eq (ls : List (List Char)) :
    collectNameLines ls true =
      (((ls.map classifyLineAmendedC2).filter (fun c => c ≠ LineClass.skipLine)).takeWhile
        isNameClass).filterMap nameOfClass := by
  induction ls with
  | nil => rfl
  | cons line rest ih =>
    by_cases h1 : (clean_text line).length < 2
    · have hcls : classifyLineAmendedC2 line = LineClass.skipLine := by
        unfold classifyLineAmendedC2
        rw [if_pos h1]
      simp only [collectNameLines]
      rw [if_pos h1, ih, List.map_cons, hcls]
      simp
    · by_cases h2 : (clean_text line).filter Char.isAlpha = []
      · have hcls : classifyLineAmendedC2 line = LineClass.skipLine := by
          unfold classifyLineAmendedC2
          rw [if_neg h1, if_pos h2]
        simp only [collectNameLines]
        rw [if_neg h1, if_pos h2, ih, List.map_cons, hcls]
        simp
      · by_cases h3 : ((clean_text line).filter Char.isAlpha).all Char.isUpper = true ∧
            3 ≤ (clean_text line).length
        · have hcls : classifyLineAmendedC2 line = LineClass.nameLine (clean_text line) := by
            unfold classifyLineAmendedC2
            rw [if_neg h1, if_neg h2, if_pos h3]
          simp only [collectNameLines]
          rw [if_neg h1, if_neg h2, if_pos h3, ih, List.map_cons, hcls]
          simp [isNameClass, nameOfClass]
        · have hcls : classifyLineAmendedC2 line = LineClass.breakLine := by
            unfold classifyLineAmendedC2
            rw [if_neg h1, if_neg h2, if_neg h3]
          simp only [collectNameLines]
          rw [if_neg h1, if_neg h2, if_neg h3, List.map_cons, hcls]
          simp [isNameClass]

/-- Helper for claim C2: the collection loop started with `found_name` unset
drops classified non-name lines until the first name line and then collects
the contiguous run. -/
theorem collectNameLines_false_eq (ls : List (List Char)) :
    collectNameLines ls false =
      ((((ls.map classifyLineAmendedC2).filter (fun c => c ≠ LineClass.skipLine)).dropWhile
        (fun c => !isNameClass c)).takeWhile isNameClass).filterMap nameOfClass := by
  induction ls with
  | nil => rfl
  | cons line rest ih =>
    by_cases h1 : (clean_text line).length < 2
    · have hcls : classifyLineAmendedC2 line = LineClass.skipLine := by
        unfold classifyLineAmendedC2
        rw [if_pos h1]
      simp only [collectNameLines]
      rw [if_pos h1, ih, List.map_cons, hcls]
      simp
    · by_cases h2 : (clean_text line).filter Char.isAlpha = []
      · have hcls : classifyLineAmendedC2 line = LineClass.skipLine := by
          unfold classifyLineAmendedC2
          rw [if_neg h1, if_pos h2]
        simp only [collectNameLines]
        rw [if_neg h1, if_pos h2, ih, List.map_cons, hcls]
        simp
      · by_cases h3 : ((clean_text line).filter Char.isAlpha).all Char.isUpper = true ∧
            3 ≤ (clean_text line).length
        · have hcls : classifyLineAmendedC2 line = LineClass.nameLine (clean_text line) := by
            unfold classifyLineAmendedC2
            rw [if_neg h1, if_neg h2, if_pos h3]
          simp only [collectNameLines]
          rw [if_neg h1, if_neg h2, if_pos h3, collectNameLines_true_eq rest,
            List.map_cons, hcls]
          simp [isNameClass, nameOfClass]
        · have hcls : classifyLineAmendedC2 line = LineClass.breakLine := by
            unfold classifyLineAmendedC2
            rw [if_neg h1, if_neg h2, if_neg h3]
          simp only [collectNameLines]
          rw [if_neg h1, if_neg h2, if_neg h3, ih, List.map_cons, hcls]
          simp [isNameClass]

/-- Claim C2 as stated is false: a line whose cleaned form is shorter than
2 characters (here the single-character line `A`) is skipped by the code,
not treated as a run-stopping non-name line, so the code keeps collecting
across it while the claimed rule stops at it. -/
theorem parse_item_name_short_line_counterexample :
    parse_item_name_from_tooltip (chars "HELLO WORLD\nA\nGOODBYE") =
      some (chars "HELLO WORLD GOODBYE") ∧
    parse_specC2_claimed (chars "HELLO WORLD\nA\nGOODBYE") =
      some (chars "HELLO WORLD") ∧
    parse_item_name_from_tooltip (chars "HELLO WORLD\nA\nGOODBYE") ≠
      parse_specC2_claimed (chars "HELLO WORLD\nA\nGOODBYE") := by
  refine ⟨by decide, by decide, by decide⟩

/-- Claim C2, amended: the parser returns exactly the contiguous run of
leading name lines joined with single spaces, where a name line is a
cleaned line with at least 3 characters whose alphabetic characters are all
uppercase; lines with no alphabetic characters — and lines whose cleaned
form is shorter than 2 characters — are skipped without being classified;
once collection has started, encountering any other non-name line stops
collection. -/
theorem parse_item_name_from_tooltip_amended (text : List Char) :
    parse_item_name_from_tooltip text = parse_specC2_amended text := by
  unfold parse_item_name_from_tooltip parse_specC2_amended parseByClassification
  by_cases h : tooltipLines text = []
  · simp [h]
  · rw [if_neg h, collectNameLines_false_eq]

/-- Witness for `parse_item_name_from_tooltip_amended` (its statement has no
hypothesis, but we record the spec's own example evaluating concretely):
the classifier-based description and the code agree on the spec's
ACTIONS example. -/
theorem parse_item_name_from_tooltip_amended_witness :
    parse_item_name_from_tooltip
        (chars "ACTIONS\nADVANCED ELECTRICAL\nCOMPONENTS\nSell for 12c") =
      some (chars "ACTIONS ADVANCED ELECTRICAL COMPONENTS") :=
  (parse_item_name_from_tooltip_amended
      (chars "ACTIONS\nADVANCED ELECTRICAL\nCOMPONENTS\nSell for 12c")).trans
    (by decide)

/-- Claim C1 as stated is false in its "same placeholder size regardless of
the input" part: the blank fallback is
`Image.new("L", (image.width * 2, image.height * 2), 255)`, so two
background-free inputs of different sizes get placeholders of different
sizes (a 1 × 1 black input yields a 2 × 2 placeholder, a 2 × 1 black input
a 4 × 2 one). -/
theorem preprocess_tooltip_fixed_size_counterexample :
    preprocess_tooltip trivialResample ⟨[[(0, 0, 0)]]⟩ = blankGray 2 2 ∧
    preprocess_tooltip trivialResample ⟨[[(0, 0, 0), (0, 0, 0)]]⟩ = blankGray 4 2 ∧
    (preprocess_tooltip trivialResample ⟨[[(0, 0, 0)]]⟩).width ≠
      (preprocess_tooltip trivialResample ⟨[[(0, 0, 0), (0, 0, 0)]]⟩).width := by
  have h1 : creamRowIdx ⟨[[(0, 0, 0)]]⟩ = [] := by
    simp [creamRowIdx, creamMask, isCream, RGBImage.width, RGBImage.height]
  have h2 : creamRowIdx ⟨[[(0, 0, 0), (0, 0, 0)]]⟩ = [] := by
    simp [creamRowIdx, creamMask, isCream, RGBImage.width, RGBImage.height]
  have e1 : preprocess_tooltip trivialResample ⟨[[(0, 0, 0)]]⟩ = blankGray 2 2 := by
    simp only [preprocess_tooltip]
    rw [if_pos (Or.inl h1)]
    rfl
  have e2 : preprocess_tooltip trivialResample ⟨[[(0, 0, 0), (0, 0, 0)]]⟩ =
      blankGray 4 2 := by
    simp only [preprocess_tooltip]
    rw [if_pos (Or.inl h2)]
    rfl
  refine ⟨e1, e2, ?_⟩
  rw [e1, e2]
  decide

/-- Claim C1, amended: whenever no row clears the 0.5 background-fraction
threshold or no column clears the 0.3 threshold, and likewise when the
tight-column 0.5 match finds nothing, `preprocess_tooltip` returns (without
raising, modelled by totality) the all-white placeholder of size exactly
twice the input's width and height — the same placeholder for all inputs of
equal dimensions, regardless of their content. -/
theorem preprocess_tooltip_blank_fallback
    (resample : List (List Nat) → Nat → List (List Nat)) (img : RGBImage)
    (hfb : creamRowIdx img = [] ∨ creamColIdx img = [] ∨ tightColIdx img = []) :
    preprocess_tooltip resample img = blankGray (2 * img.width) (2 * img.height) := by
  simp only [preprocess_tooltip]
  rcases hfb with h | h | h
  · rw [if_pos (Or.inl h)]
  · rw [if_pos (Or.inr h)]
  · by_cases h2 : creamRowIdx img = [] ∨ creamColIdx img = []
    · rw [if_pos h2]
    · rw [if_neg h2, if_pos h]

/-- Witness for `preprocess_tooltip_blank_fallback`: an all-black 1 × 1
capture has no background rows at all and maps to the 2 × 2 all-white
placeholder. -/
theorem preprocess_tooltip_blank_fallback_witness :
    (creamRowIdx ⟨[[(0, 0, 0)]]⟩ = [] ∨ creamColIdx ⟨[[(0, 0, 0)]]⟩ = [] ∨
      tightColIdx ⟨[[(0, 0, 0)]]⟩ = []) ∧
    preprocess_tooltip trivialResample ⟨[[(0, 0, 0)]]⟩ = blankGray 2 2 :=
  ⟨Or.inl (by simp [creamRowIdx, creamMask, isCream, RGBImage.width, RGBImage.height]),
    preprocess_tooltip_blank_fallback trivialResample ⟨[[(0, 0, 0)]]⟩
      (Or.inl (by simp [creamRowIdx, creamMask, isCream, RGBImage.width, RGBImage.height]))⟩

/-- Claim C4: in the Active state the trigger re-check runs only on ticks
where the incremented `_trigger_check_counter` is divisible by 3; on the
other ticks no trigger check is issued and the state stays Active whatever
the trigger and tooltip oracles report, while on a re-check tick with the
trigger absent in all configured regions the scanner returns to Idle. -/
theorem active_trigger_recheck_every_third_tick (cfg : ScanConfig) (o : TickOracle)
    (st : LoopState) (hact : st.state = ScannerState.active) :
    ((st.trigger_check_counter + 1) % 3 ≠ 0 →
      (scan_loop_iteration cfg o st).after.state = ScannerState.active ∧
      LoopEffect.triggerCheckEff ∉ (scan_loop_iteration cfg o st).effects) ∧
    ((st.trigger_check_counter + 1) % 3 = 0 → o.trigger_hit = .ok false →
      (scan_loop_iteration cfg o st).after.state = ScannerState.idle ∧
      LoopEffect.triggerCheckEff ∈ (scan_loop_iteration cfg o st).effects) := by
  constructor
  · intro h3
    have hs : ((st.trigger_check_counter + 1) % 3 == 0) = false := by
      simpa using h3
    cases hex : o.extract_result with
    | error e =>
      simp [scan_loop_iteration, scan_tick_body, scan_active_extract, hact, hs, hex]
    | ok item =>
      cases item with
      | none =>
        simp [scan_loop_iteration, scan_tick_body, scan_active_extract, hact, hs, hex]
      | some name =>
        cases hne : name.isEmpty <;>
          simp [scan_loop_iteration, scan_tick_body, scan_active_extract, hact, hs,
            hex, hne]
  · intro h3 htr
    have hs : ((st.trigger_check_counter + 1) % 3 == 0) = true := by
      simpa using h3
    simp [scan_loop_iteration, scan_tick_body, hact, hs, htr]

/-- Witness for `active_trigger_recheck_every_third_tick`: with the counter
at 0 (tick 1 of 3) an absent trigger leaves the scanner Active and no
re-check is issued; with the counter at 2 (tick 3 of 3) the same absent
trigger sends it back to Idle via an issued re-check. -/
theorem active_trigger_recheck_every_third_tick_witness :
    ((scan_loop_iteration ⟨2, 1/10, 2⟩ ⟨.ok false, .ok none, fun _ => none, 0⟩
        ⟨.active, ⟨0, 0, 0, 0, none, 0⟩, ⟨"", 0⟩, 0⟩).after.state = ScannerState.active ∧
      LoopEffect.triggerCheckEff ∉ (scan_loop_iteration ⟨2, 1/10, 2⟩
        ⟨.ok false, .ok none, fun _ => none, 0⟩
        ⟨.active, ⟨0, 0, 0, 0, none, 0⟩, ⟨"", 0⟩, 0⟩).effects) ∧
    ((scan_loop_iteration ⟨2, 1/10, 2⟩ ⟨.ok false, .ok none, fun _ => none, 0⟩
        ⟨.active, ⟨0, 0, 0, 0, none, 0⟩, ⟨"", 0⟩, 2⟩).after.state = ScannerState.idle ∧
      LoopEffect.triggerCheckEff ∈ (scan_loop_iteration ⟨2, 1/10, 2⟩
        ⟨.ok false, .ok none, fun _ => none, 0⟩
        ⟨.active, ⟨0, 0, 0, 0, none, 0⟩, ⟨"", 0⟩, 2⟩).effects) :=
  ⟨(active_trigger_recheck_every_third_tick ⟨2, 1/10, 2⟩
      ⟨.ok false, .ok none, fun _ => none, 0⟩
      ⟨.active, ⟨0, 0, 0, 0, none, 0⟩, ⟨"", 0⟩, 0⟩ rfl).1 (by decide),
    (active_trigger_recheck_every_third_tick ⟨2, 1/10, 2⟩
      ⟨.ok false, .ok none, fun _ => none, 0⟩
      ⟨.active, ⟨0, 0, 0, 0, none, 0⟩, ⟨"", 0⟩, 2⟩ rfl).2 (by decide) rfl⟩

/-- Claim C3: a candidate equal to the last shown name arriving strictly
within the cooldown window is suppressed with stats, cooldown entry,
lookups and displays untouched; any other candidate is accepted, bumping
`items_detected` (and `items_found_in_db` exactly when the lookup hits),
recording the item and its time, issuing one lookup and one display
request, and moving the cooldown entry to the new name and time regardless
of the lookup outcome; a different name is accepted even within the
window. -/
theorem handle_detected_item_cooldown_policy (cooldownWindow : ℚ)
    (lookup : String → Option Item) (stats : ScannerStats) (cd : CooldownState)
    (item_name : String) (current_time : ℚ) :
    (item_name = cd.last_shown_item →
      current_time - cd.last_shown_time < cooldownWindow →
      handle_detected_item cooldownWindow lookup stats cd item_name current_time =
        ⟨stats, cd, [], []⟩) ∧
    (¬(item_name = cd.last_shown_item ∧
        current_time - cd.last_shown_time < cooldownWindow) →
      (handle_detected_item cooldownWindow lookup stats cd item_name current_time).stats =
        { stats with
          items_detected := stats.items_detected + 1
          items_found_in_db :=
            stats.items_found_in_db + (if (lookup item_name).isSome then 1 else 0)
          last_item := some item_name
          last_item_time := current_time } ∧
      (handle_detected_item cooldownWindow lookup stats cd item_name current_time).cooldown =
        ⟨item_name, current_time⟩ ∧
      (handle_detected_item cooldownWindow lookup stats cd item_name current_time).lookups =
        [item_name] ∧
      (handle_detected_item cooldownWindow lookup stats cd item_name current_time).displays =
        [(item_name, lookup item_name)]) ∧
    (item_name ≠ cd.last_shown_item →
      (handle_detected_item cooldownWindow lookup stats cd item_name current_time).displays =
        [(item_name, lookup item_name)]) := by
  refine ⟨fun h1 h2 => ?_, fun hnot => ?_, fun hne => ?_⟩
  · rw [handle_detected_item, if_pos ⟨h1, h2⟩]
  · rw [handle_detected_item, if_neg hnot]
    cases hl : lookup item_name <;> simp [hl]
  · rw [handle_detected_item, if_neg (fun hand => hne hand.1)]

/-- Witness for `handle_detected_item_cooldown_policy`: with a 2-second
window, re-detecting WIDGET 1 second after it was shown is suppressed;
re-detecting it after 2.1 seconds is accepted and refreshes the cooldown
entry; GADGET at 0.5 seconds is accepted immediately. -/
theorem handle_detected_item_cooldown_policy_witness :
    handle_detected_item 2 (fun _ => none) ⟨0, 0, 0, 0, none, 0⟩ ⟨"WIDGET", 0⟩ "WIDGET" 1 =
      ⟨⟨0, 0, 0, 0, none, 0⟩, ⟨"WIDGET", 0⟩, [], []⟩ ∧
    (handle_detected_item 2 (fun _ => none) ⟨0, 0, 0, 0, none, 0⟩ ⟨"WIDGET", 0⟩ "WIDGET"
        (21/10)).cooldown = ⟨"WIDGET", 21/10⟩ ∧
    (handle_detected_item 2 (fun _ => none) ⟨0, 0, 0, 0, none, 0⟩ ⟨"WIDGET", 0⟩ "GADGET"
        (1/2)).displays = [("GADGET", none)] :=
  ⟨(handle_detected_item_cooldown_policy 2 (fun _ => none) ⟨0, 0, 0, 0, none, 0⟩
      ⟨"WIDGET", 0⟩ "WIDGET" 1).1 rfl (by norm_num),
    ((handle_detected_item_cooldown_policy 2 (fun _ => none) ⟨0, 0, 0, 0, none, 0⟩
      ⟨"WIDGET", 0⟩ "WIDGET" (21/10)).2.1 (by
        rintro ⟨-, hlt⟩
        norm_num at hlt)).2.1,
    (handle_detected_item_cooldown_policy 2 (fun _ => none) ⟨0, 0, 0, 0, none, 0⟩
      ⟨"WIDGET", 0⟩ "GADGET" (1/2)).2.2 (by decide)⟩

end ArcTooltip
